import Mathlib

/-!
Shallow embedding of the football-prediction backend: the odds-to-probability
conversion, the upstream fetch with mock fallback (`FootballApiService`), and
the cache-or-fetch query pipeline over a Mongo-like document store
(`PredictionsService`).  String-valued numeric fields from the upstream payload
are modelled at the point after JS `parseFloat`: `none` stands for `NaN`
(unparsable input), `some q` for a parsed finite value, with rationals in place
of IEEE doubles.  The document store is a list of records; a query is a state
transformer returning the response together with the post-call store.
-/

/-- JS `v || d` on a number `v` (0 is falsy, everything else truthy). -/
def jsNumOr (v d : ℤ) : ℤ := if v = 0 then d else v

/-- JS `s || d` on a string `s` (the empty string is falsy). -/
def jsStrOr (s d : String) : String := if s = "" then d else s

/-- JS `a || b` where `a` is number-or-null: both `null` and `0` fall through. -/
def jsOptNumOr (a : Option ℤ) (b : ℤ) : ℤ :=
  match a with
  | none => b
  | some v => if v = 0 then b else v

/-- JS `parseFloat(s) || undefined`: `NaN` and `0` give `undefined`. -/
def jsOptRatOrUndef (a : Option ℚ) : Option ℚ :=
  match a with
  | none => none
  | some q => if q = 0 then none else some q

/-- JS truthiness of an optional string argument (`undefined` and `""` falsy). -/
def jsStrTruthy (s : Option String) : Bool :=
  match s with
  | none => false
  | some t => !t.isEmpty

/-- Upstream `details` block of a Betminer match (identifying string fields). -/
structure BetminerDetails where
  date : String
  homeTeam : String
  awayTeam : String
  country : String
  competition : String
  competition_full : String
deriving Repr, DecidableEq

/-- Upstream `odds` block, each field already taken through `parseFloat`. -/
structure BetminerOdds where
  home_win_odds : Option ℚ
  away_win_odds : Option ℚ
  draw_odds : Option ℚ
deriving Repr, DecidableEq

/-- Upstream `predictions_conf` block, each field already taken through
`parseFloat`; `none` covers an absent/empty key as well as `NaN`. -/
structure BetminerConf where
  HOME_WIN : Option ℚ
  AWAY_WIN : Option ℚ
  DRAW : Option ℚ
deriving Repr, DecidableEq

/-- A raw upstream match as consumed by the normalization step. -/
structure BetminerMatch where
  details : BetminerDetails
  odds : BetminerOdds
  predictions_conf : BetminerConf
deriving Repr, DecidableEq

/-- A normalized prediction (`TransformedPrediction` in the service). -/
structure TransformedPrediction where
  homeTeam : String
  awayTeam : String
  homeWinChance : ℤ
  awayWinChance : ℤ
  drawChance : ℤ
  matchTime : String
  competition : String
  date : String
  country : Option String
  homeWinOdds : Option ℚ
  awayWinOdds : Option ℚ
  drawOdds : Option ℚ
deriving Repr, DecidableEq

/-- `calculateWinChanceFromOdds`: `null` on `NaN` or non-positive odds,
otherwise `Math.round((1 / odds) * 100)`. -/
def calculateWinChanceFromOdds (oddsVal : Option ℚ) : Option ℤ :=
  match oddsVal with
  | none => none
  | some odds => if odds ≤ 0 then none else some (round ((1 / odds) * 100))

/-- `parseConfidence`: `null` on a falsy or unparsable confidence string,
otherwise `Math.round` of the parsed value. -/
def parseConfidence (confVal : Option ℚ) : Option ℤ :=
  match confVal with
  | none => none
  | some c => some (round c)

/-- `extractTimeFromDate`: the `HH:MM` part of `"YYYY-MM-DD HH:MM:SS"`,
falling back to `"00:00"` when there is no space-separated time part. -/
def extractTimeFromDate (dateString : String) : String :=
  let parts := dateString.splitOn " "
  if 2 ≤ parts.length then (parts.getD 1 "").take 5 else "00:00"

/-- Per-match normalization inside `transformBetminerData`. -/
def transformMatch (m : BetminerMatch) : TransformedPrediction :=
  { homeTeam := m.details.homeTeam
    awayTeam := m.details.awayTeam
    homeWinChance :=
      jsOptNumOr (calculateWinChanceFromOdds m.odds.home_win_odds)
        (jsOptNumOr (parseConfidence m.predictions_conf.HOME_WIN) 0)
    awayWinChance :=
      jsOptNumOr (calculateWinChanceFromOdds m.odds.away_win_odds)
        (jsOptNumOr (parseConfidence m.predictions_conf.AWAY_WIN) 0)
    drawChance :=
      jsOptNumOr (calculateWinChanceFromOdds m.odds.draw_odds)
        (jsOptNumOr (parseConfidence m.predictions_conf.DRAW) 0)
    matchTime := extractTimeFromDate m.details.date
    competition := jsStrOr m.details.competition_full m.details.competition
    date := (m.details.date.splitOn " ").getD 0 ""
    country := some m.details.country
    homeWinOdds := jsOptRatOrUndef m.odds.home_win_odds
    awayWinOdds := jsOptRatOrUndef m.odds.away_win_odds
    drawOdds := jsOptRatOrUndef m.odds.draw_odds }

/-- The post-normalization validity filter of `transformBetminerData`:
`prediction.homeTeam && prediction.awayTeam && prediction.homeWinChance > 0`. -/
def validPrediction (p : TransformedPrediction) : Bool :=
  !p.homeTeam.isEmpty && !p.awayTeam.isEmpty && decide (0 < p.homeWinChance)

/-- `transformBetminerData`: normalize every raw match, then drop invalid ones. -/
def transformBetminerData (ms : List BetminerMatch) : List TransformedPrediction :=
  (ms.map transformMatch).filter validPrediction

/-- `getMockPredictions`: the fixed built-in sample set, parameterized only by
the requested date. -/
def getMockPredictions (date : String) : List TransformedPrediction :=
  [ { homeTeam := "Real Soacha", awayTeam := "Deportes Tolima",
      homeWinChance := 21, awayWinChance := 62, drawChance := 26,
      matchTime := "00:00", competition := "Colombia Copa Colombia",
      date := date, country := some "Colombia",
      homeWinOdds := some (4.75 : ℚ), awayWinOdds := some (1.60 : ℚ),
      drawOdds := some (3.90 : ℚ) },
    { homeTeam := "Deportivo Cali", awayTeam := "Union Magdalena",
      homeWinChance := 56, awayWinChance := 18, drawChance := 32,
      matchTime := "00:30", competition := "Colombia Primera A",
      date := date, country := some "Colombia",
      homeWinOdds := some (1.80 : ℚ), awayWinOdds := some (5.50 : ℚ),
      drawOdds := some (3.10 : ℚ) },
    { homeTeam := "América W", awayTeam := "Puebla W",
      homeWinChance := 99, awayWinChance := 1, drawChance := 3,
      matchTime := "01:00", competition := "Mexico Liga MX Femenil",
      date := date, country := some "Mexico",
      homeWinOdds := some (1.01 : ℚ), awayWinOdds := some (67.00 : ℚ),
      drawOdds := some (29.00 : ℚ) },
    { homeTeam := "Toluca W", awayTeam := "Guadalajara W",
      homeWinChance := 40, awayWinChance := 38, drawChance := 31,
      matchTime := "01:00", competition := "Mexico Liga MX Femenil",
      date := date, country := some "Mexico",
      homeWinOdds := some (2.50 : ℚ), awayWinOdds := some (2.60 : ℚ),
      drawOdds := some (3.25 : ℚ) },
    { homeTeam := "Santa Fe", awayTeam := "Millonarios",
      homeWinChance := 36, awayWinChance := 36, drawChance := 34,
      matchTime := "01:30", competition := "Colombia Primera A",
      date := date, country := some "Colombia",
      homeWinOdds := some (2.80 : ℚ), awayWinOdds := some (2.75 : ℚ),
      drawOdds := some (2.90 : ℚ) } ]

/-- Outcome of the live-mode upstream request, as observed by
`getBetminerPredictions`: a well-formed array body, a body that is missing or
not an array, or a thrown error (timeout, non-2xx, network failure). -/
inductive BetminerResponse where
  | ok (data : List BetminerMatch)
  | malformed
  | requestError
deriving Repr, DecidableEq

/-- `getBetminerPredictions`: transform a good response; fall back to the mock
set when the body is malformed or the request threw. -/
def getBetminerPredictions (resp : BetminerResponse) (date : String) :
    List TransformedPrediction :=
  match resp with
  | .ok data => transformBetminerData data
  | .malformed => getMockPredictions date
  | .requestError => getMockPredictions date

/-- `getPredictions`: mock mode short-circuits to the sample set; live mode
goes through the upstream request. -/
def getPredictions (mockMode : Bool) (resp : BetminerResponse) (date : String) :
    List TransformedPrediction :=
  if mockMode then getMockPredictions date else getBetminerPredictions resp date

/-- A persisted cache document (`Prediction` schema); `cachedAt` in
milliseconds since the epoch. -/
structure PredictionDoc where
  date : String
  homeTeam : String
  awayTeam : String
  homeWinChance : ℤ
  awayWinChance : ℤ
  drawChance : ℤ
  matchTime : String
  competition : String
  country : Option String
  homeWinOdds : Option ℚ
  awayWinOdds : Option ℚ
  drawOdds : Option ℚ
  apiSource : String
  cachedAt : ℤ
deriving Repr, DecidableEq

/-- The fixed freshness TTL: 2 hours in milliseconds. -/
def TTL_MS : ℤ := 2 * 60 * 60 * 1000

/-- The cache read `find({date, cachedAt: {$gte: threshold}})`. -/
def findFresh (store : List PredictionDoc) (date : String) (threshold : ℤ) :
    List PredictionDoc :=
  store.filter (fun d => d.date == date && decide (threshold ≤ d.cachedAt))

/-- The response shape of one prediction (`PredictionResponseDto`). -/
structure PredictionResponseDto where
  homeTeam : String
  awayTeam : String
  homeWinChance : ℤ
  awayWinChance : ℤ
  drawChance : ℤ
  matchTime : String
  competition : String
  date : String
  country : Option String
  homeWinOdds : Option ℚ
  awayWinOdds : Option ℚ
  drawOdds : Option ℚ
deriving Repr, DecidableEq

/-- The field-for-field projection of a cached document into the DTO, used on
both cache-hit paths. -/
def docToDto (p : PredictionDoc) : PredictionResponseDto :=
  { homeTeam := p.homeTeam, awayTeam := p.awayTeam,
    homeWinChance := p.homeWinChance, awayWinChance := p.awayWinChance,
    drawChance := p.drawChance, matchTime := p.matchTime,
    competition := p.competition, date := p.date, country := p.country,
    homeWinOdds := p.homeWinOdds, awayWinOdds := p.awayWinOdds,
    drawOdds := p.drawOdds }

/-- The per-record body of `transformApiToDto`, with its `||` defaults. -/
def apiToDto (p : TransformedPrediction) : PredictionResponseDto :=
  { homeTeam := jsStrOr p.homeTeam "Unknown Home",
    awayTeam := jsStrOr p.awayTeam "Unknown Away",
    homeWinChance := jsNumOr p.homeWinChance 0,
    awayWinChance := jsNumOr p.awayWinChance 0,
    drawChance := jsNumOr p.drawChance 0,
    matchTime := jsStrOr p.matchTime "00:00",
    competition := jsStrOr p.competition "Unknown League",
    date := p.date, country := p.country,
    homeWinOdds := p.homeWinOdds, awayWinOdds := p.awayWinOdds,
    drawOdds := p.drawOdds }

/-- `transformApiToDto` over a fetched list. -/
def transformApiToDto (ps : List TransformedPrediction) : List PredictionResponseDto :=
  ps.map apiToDto

/-- Whether `pat` occurs at the head of `l`. -/
def charsStartWith : List Char → List Char → Bool
  | [], _ => true
  | _ :: _, [] => false
  | c :: cs, d :: ds => c = d && charsStartWith cs ds

/-- Whether `pat` occurs somewhere inside `l` (JS `String.includes`). -/
def charsHaveSub (pat : List Char) : List Char → Bool
  | [] => charsStartWith pat []
  | d :: ds => charsStartWith pat (d :: ds) || charsHaveSub pat ds

/-- JS `s.includes(pat)`. -/
def strIncludes (s pat : String) : Bool := charsHaveSub pat.toList s.toList

/-- The team filter body used on every path:
`homeTeam.toLowerCase().includes(t.toLowerCase()) || awayTeam...`. -/
def teamFilterPred (t home away : String) : Bool :=
  strIncludes home.toLower t.toLower || strIncludes away.toLower t.toLower

/-- Apply the optional team filter to a DTO list, with JS truthiness on the
filter argument. -/
def applyTeamFilterDto (tf : Option String) (l : List PredictionResponseDto) :
    List PredictionResponseDto :=
  if jsStrTruthy tf then
    l.filter (fun p => teamFilterPred (tf.getD "") p.homeTeam p.awayTeam)
  else l

/-- `filterAndTransformPredictions` (the cache-hit path of the threshold
query): threshold filter, then optional team filter, then DTO projection. -/
def filterAndTransformPredictions (docs : List PredictionDoc) (tf : Option String) :
    List PredictionResponseDto :=
  let filtered := docs.filter (fun p => decide (50 < p.homeWinChance))
  let filtered2 :=
    if jsStrTruthy tf then
      filtered.filter (fun p => teamFilterPred (tf.getD "") p.homeTeam p.awayTeam)
    else filtered
  filtered2.map docToDto

/-- `filterPredictionsByHomeWinChance` (the cache-miss threshold filter):
`(prediction.homeWinChance || 0) > 50`. -/
def filterPredictionsByHomeWinChance (ps : List TransformedPrediction) :
    List TransformedPrediction :=
  ps.filter (fun p => decide (50 < jsNumOr p.homeWinChance 0))

/-- How the delete-then-insert pair of `cacheApiPredictions` can end: both
steps succeed, the delete throws (store untouched), or the insert throws
(old generation deleted, nothing inserted).  Every failure is caught. -/
inductive WriteOutcome where
  | ok
  | deleteFails
  | insertFails
deriving Repr, DecidableEq

/-- The document built for insertion by `cacheApiPredictions`. -/
def toDoc (date : String) (now : ℤ) (p : TransformedPrediction) : PredictionDoc :=
  { date := date
    homeTeam := jsStrOr p.homeTeam "Unknown Home"
    awayTeam := jsStrOr p.awayTeam "Unknown Away"
    homeWinChance := jsNumOr p.homeWinChance 0
    awayWinChance := jsNumOr p.awayWinChance 0
    drawChance := jsNumOr p.drawChance 0
    matchTime := jsStrOr p.matchTime "00:00"
    competition := jsStrOr p.competition "Unknown League"
    country := p.country
    homeWinOdds := p.homeWinOdds
    awayWinOdds := p.awayWinOdds
    drawOdds := p.drawOdds
    apiSource := "betminer"
    cachedAt := now }

/-- `cacheApiPredictions` as a store transformer: `deleteMany({date})` then
`insertMany`, with any thrown error caught and logged (never re-raised). -/
def cacheApiPredictions (store : List PredictionDoc)
    (predictions : List TransformedPrediction) (date : String) (now : ℤ)
    (w : WriteOutcome) : List PredictionDoc :=
  match w with
  | .deleteFails => store
  | .insertFails => store.filter (fun d => !(d.date == date))
  | .ok => store.filter (fun d => !(d.date == date)) ++ predictions.map (toDoc date now)

/-- The service result: the DTO list plus the cache-hit flag. -/
structure PredictionsResult where
  predictions : List PredictionResponseDto
  cached : Bool
deriving Repr, DecidableEq

/-- `getPredictionsForDate` (threshold mode), with the fetched upstream list
`api` and the write outcome `w` as explicit inputs; returns the result and the
post-call store. -/
def getPredictionsForDate (store : List PredictionDoc) (date : String)
    (tf : Option String) (now : ℤ) (api : List TransformedPrediction)
    (w : WriteOutcome) : PredictionsResult × List PredictionDoc :=
  let cachedPredictions := findFresh store date (now - TTL_MS)
  if 0 < cachedPredictions.length then
    ({ predictions := filterAndTransformPredictions cachedPredictions tf,
       cached := true }, store)
  else
    let store2 :=
      if 0 < api.length then cacheApiPredictions store api date now w else store
    let filtered := filterPredictionsByHomeWinChance api
    let transformed := transformApiToDto filtered
    let final := applyTeamFilterDto tf transformed
    ({ predictions := final, cached := false }, store2)

/-- `getAllPredictionsForDate` (no threshold), same shape as above. -/
def getAllPredictionsForDate (store : List PredictionDoc) (date : String)
    (tf : Option String) (now : ℤ) (api : List TransformedPrediction)
    (w : WriteOutcome) : PredictionsResult × List PredictionDoc :=
  let cachedPredictions := findFresh store date (now - TTL_MS)
  if 0 < cachedPredictions.length then
    let filtered :=
      if jsStrTruthy tf then
        cachedPredictions.filter
          (fun p => teamFilterPred (tf.getD "") p.homeTeam p.awayTeam)
      else cachedPredictions
    ({ predictions := filtered.map docToDto, cached := true }, store)
  else
    let store2 :=
      if 0 < api.length then cacheApiPredictions store api date now w else store
    let final := applyTeamFilterDto tf (transformApiToDto api)
    ({ predictions := final, cached := false }, store2)

/-- A sample normalized prediction with a home-win chance of 56, used as a
concrete fetched record. -/
def caliSample : TransformedPrediction :=
  { homeTeam := "Deportivo Cali", awayTeam := "Union Magdalena",
    homeWinChance := 56, awayWinChance := 18, drawChance := 32,
    matchTime := "00:30", competition := "Colombia Primera A",
    date := "2025-08-12", country := some "Colombia",
    homeWinOdds := some 2, awayWinOdds := some 5,
    drawOdds := some 3 }

/-- A cached document written 119 minutes before `now`. -/
def doc119 (now : ℤ) : PredictionDoc :=
  { date := "2025-08-12", homeTeam := "A", awayTeam := "B",
    homeWinChance := 60, awayWinChance := 20, drawChance := 20,
    matchTime := "10:00", competition := "L", country := none,
    homeWinOdds := none, awayWinOdds := none, drawOdds := none,
    apiSource := "betminer", cachedAt := now - 119 * 60 * 1000 }

/-- A cached document written 121 minutes before `now`. -/
def doc121 (now : ℤ) : PredictionDoc :=
  { date := "2025-08-12", homeTeam := "C", awayTeam := "D",
    homeWinChance := 60, awayWinChance := 20, drawChance := 20,
    matchTime := "10:00", competition := "L", country := none,
    homeWinOdds := none, awayWinOdds := none, drawOdds := none,
    apiSource := "betminer", cachedAt := now - 121 * 60 * 1000 }

def sampleDetails : BetminerDetails :=
  { date := "2025-08-14 18:30:00", homeTeam := "Arsenal", awayTeam := "Chelsea",
    country := "England", competition := "PL", competition_full := "Premier League" }

def sampleOdds : BetminerOdds :=
  { home_win_odds := some 2, away_win_odds := some 4, draw_odds := some 4 }

def sampleConf : BetminerConf :=
  { HOME_WIN := none, AWAY_WIN := none, DRAW := none }

/-- A well-formed raw upstream match (home odds 2, so home chance 50). -/
def sampleMatch : BetminerMatch :=
  { details := sampleDetails, odds := sampleOdds, predictions_conf := sampleConf }

/-- The chance-resolution order exactly as the spec words it: always prefer an
available odds-derived value, fall back to an available confidence value,
else 0. -/
def resolveChance_specOrder (oddsVal confVal : Option ℤ) : ℤ :=
  match oddsVal with
  | some v => v
  | none =>
    match confVal with
    | some c => c
    | none => 0

def oddsZeroDetails : BetminerDetails :=
  { date := "2025-08-14 00:00:00", homeTeam := "H", awayTeam := "A",
    country := "C", competition := "L", competition_full := "LF" }

def oddsZeroOdds : BetminerOdds :=
  { home_win_odds := some 250, away_win_odds := some 2, draw_odds := some 4 }

def oddsZeroConf : BetminerConf :=
  { HOME_WIN := some 30, AWAY_WIN := none, DRAW := none }

/-- A raw match whose home odds parse to 250 (odds-derived percent rounds to
0) while a home confidence of 30 is also present. -/
def oddsZeroMatch : BetminerMatch :=
  { details := oddsZeroDetails, odds := oddsZeroOdds, predictions_conf := oddsZeroConf }

/-- The corrected chance-resolution order: an odds-derived value is used only
when it is available and nonzero; else a confidence value when it is
available and nonzero; otherwise 0. -/
def resolveChance_amended (oddsVal confVal : Option ℤ) : ℤ :=
  match oddsVal, confVal with
  | some v, some c => if v ≠ 0 then v else if c ≠ 0 then c else 0
  | some v, none => if v ≠ 0 then v else 0
  | none, some c => if c ≠ 0 then c else 0
  | none, none => 0

lemma jsNumOr_zero (v : ℤ) : jsNumOr v 0 = v := by
  unfold jsNumOr; split <;> omega

lemma isEmpty_false_ne_empty {s : String} (h : s.isEmpty = false) : s ≠ "" := by
  intro he
  subst he
  exact absurd h (by decide)

lemma jsStrOr_ne_empty (s d : String) (hd : d ≠ "") : jsStrOr s d ≠ "" := by
  unfold jsStrOr
  split
  · exact hd
  · assumption

lemma mem_filterAndTransform_gt50 {docs : List PredictionDoc} {tf : Option String}
    {r : PredictionResponseDto} (hr : r ∈ filterAndTransformPredictions docs tf) :
    50 < r.homeWinChance := by
  simp only [filterAndTransformPredictions] at hr
  rcases List.mem_map.1 hr with ⟨d, hd, rfl⟩
  have hd2 : d ∈ docs.filter (fun p => decide (50 < p.homeWinChance)) := by
    split at hd
    · exact (List.mem_filter.1 hd).1
    · exact hd
  have := (List.mem_filter.1 hd2).2
  simpa [docToDto] using of_decide_eq_true this

lemma mem_missPath_gt50 {api : List TransformedPrediction} {tf : Option String}
    {r : PredictionResponseDto}
    (hr : r ∈ applyTeamFilterDto tf (transformApiToDto (filterPredictionsByHomeWinChance api))) :
    50 < r.homeWinChance := by
  simp only [applyTeamFilterDto] at hr
  have hr2 : r ∈ transformApiToDto (filterPredictionsByHomeWinChance api) := by
    split at hr
    · exact (List.mem_filter.1 hr).1
    · exact hr
  simp only [transformApiToDto] at hr2
  rcases List.mem_map.1 hr2 with ⟨p, hp, rfl⟩
  have := of_decide_eq_true (List.mem_filter.1 hp).2
  simpa [apiToDto, jsNumOr_zero] using this

/-- Claim C1: in threshold mode every returned record has
`homeWinChance > 50` strictly, on the cache-hit path and on the cache-miss
path alike; in particular a record with `homeWinChance = 50` is never
returned. -/
theorem getPredictionsForDate_threshold_strict
    (store : List PredictionDoc) (date : String) (tf : Option String) (now : ℤ)
    (api : List TransformedPrediction) (w : WriteOutcome) :
    ∀ r ∈ (getPredictionsForDate store date tf now api w).1.predictions,
      50 < r.homeWinChance ∧ r.homeWinChance ≠ 50 := by
  intro r hr
  simp only [getPredictionsForDate] at hr
  split at hr
  · have := mem_filterAndTransform_gt50 hr
    exact ⟨this, by omega⟩
  · have := mem_missPath_gt50 hr
    exact ⟨this, by omega⟩

/-- Claim C1, witness: a concrete cache-miss run returns the sample record
with chance 56, above the threshold. -/
theorem getPredictionsForDate_threshold_strict_witness :
    50 < (apiToDto caliSample).homeWinChance ∧ (apiToDto caliSample).homeWinChance ≠ 50 :=
  getPredictionsForDate_threshold_strict [] "2025-08-12" none 0
    [caliSample] .ok (apiToDto caliSample) (by decide)

/-- Claim C2: `findFresh` keeps exactly the records of the requested date
whose `cachedAt` is at or after `now - TTL` (inclusive); a record cached 119
minutes ago is kept and one cached 121 minutes ago is dropped; and the
threshold query reports `cached = true` exactly when this set is non-empty. -/
theorem findFresh_freshness_window :
    (∀ (store : List PredictionDoc) (date : String) (now : ℤ) (d : PredictionDoc),
      d ∈ findFresh store date (now - TTL_MS) ↔
        d ∈ store ∧ d.date = date ∧ now - TTL_MS ≤ d.cachedAt)
    ∧ (∀ now : ℤ,
        findFresh [doc119 now, doc121 now] "2025-08-12" (now - TTL_MS) = [doc119 now])
    ∧ (∀ (store : List PredictionDoc) (date : String) (tf : Option String) (now : ℤ)
        (api : List TransformedPrediction) (w : WriteOutcome),
        (getPredictionsForDate store date tf now api w).1.cached = true ↔
          findFresh store date (now - TTL_MS) ≠ []) := by
  refine ⟨?_, ?_, ?_⟩
  · intro store date now d
    simp [findFresh, List.mem_filter, and_assoc]
  · intro now
    have h1 : ((doc119 now).date == "2025-08-12"
        && decide (now - TTL_MS ≤ (doc119 now).cachedAt)) = true := by
      simp [doc119, TTL_MS]; omega
    have h2 : ¬ (((doc121 now).date == "2025-08-12"
        && decide (now - TTL_MS ≤ (doc121 now).cachedAt)) = true) := by
      simp [doc121, TTL_MS]; omega
    simp only [findFresh, List.filter_cons, List.filter_nil]
    rw [if_pos h1, if_neg h2]
  · intro store date tf now api w
    simp only [getPredictionsForDate]
    split
    · rename_i h
      simp only [true_iff, ne_eq]
      intro hnil
      rw [hnil] at h
      simp at h
    · rename_i h
      simp only [Bool.false_eq_true, false_iff, ne_eq, not_not]
      exact List.length_eq_zero.1 (Nat.eq_zero_of_not_pos h)

/-- Claim C3: a refresh is a full delete-then-insert replacement — afterwards
the store holds for that date exactly the documents built from `R`, repeating
the same refresh leaves the store in the same shape, and the record count for
that date is `|R|`. -/
theorem cacheApiPredictions_replaceAll
    (store : List PredictionDoc) (ps : List TransformedPrediction)
    (date : String) (now now2 : ℤ) :
    ((cacheApiPredictions store ps date now .ok).filter (fun d => d.date == date)
        = ps.map (toDoc date now))
    ∧ (cacheApiPredictions (cacheApiPredictions store ps date now .ok) ps date now2 .ok
        = store.filter (fun d => !(d.date == date)) ++ ps.map (toDoc date now2))
    ∧ (((cacheApiPredictions (cacheApiPredictions store ps date now .ok) ps date now2
          .ok).filter (fun d => d.date == date)).length = ps.length) := by
  have hmapdate : ∀ now3 : ℤ, (ps.map (toDoc date now3)).filter (fun d => d.date == date)
      = ps.map (toDoc date now3) := by
    intro now3
    apply List.filter_eq_self.2
    intro d hd
    rcases List.mem_map.1 hd with ⟨p, _, rfl⟩
    simp [toDoc]
  have hmapdate2 : ∀ now3 : ℤ, (ps.map (toDoc date now3)).filter (fun d => !(d.date == date))
      = [] := by
    intro now3
    apply List.filter_eq_nil_iff.2
    intro d hd
    rcases List.mem_map.1 hd with ⟨p, _, rfl⟩
    simp [toDoc]
  have hkeep : (store.filter (fun d => !(d.date == date))).filter (fun d => d.date == date)
      = [] := by
    apply List.filter_eq_nil_iff.2
    intro d hd
    have := (List.mem_filter.1 hd).2
    simp at this
    simp [this]
  have hkeep2 : (store.filter (fun d => !(d.date == date))).filter (fun d => !(d.date == date))
      = store.filter (fun d => !(d.date == date)) := by
    apply List.filter_eq_self.2
    intro d hd
    exact (List.mem_filter.1 hd).2
  have h1 : (cacheApiPredictions store ps date now .ok).filter (fun d => d.date == date)
      = ps.map (toDoc date now) := by
    simp only [cacheApiPredictions, List.filter_append, hkeep, hmapdate, List.nil_append]
  have h2 : cacheApiPredictions (cacheApiPredictions store ps date now .ok) ps date now2 .ok
      = store.filter (fun d => !(d.date == date)) ++ ps.map (toDoc date now2) := by
    simp only [cacheApiPredictions, List.filter_append, hkeep2, hmapdate2, List.append_nil]
  refine ⟨h1, h2, ?_⟩
  rw [h2]
  simp only [List.filter_append, hkeep, hmapdate, List.nil_append, List.length_map]

/-- Claim C4: for every parsed decimal odds value `o > 0` the conversion
returns `round(100 / o)`; for a non-positive or unparsable value it returns
the unavailable marker, and it is a total function (never throws). -/
theorem calculateWinChanceFromOdds_spec :
    (∀ o : ℚ, 0 < o → calculateWinChanceFromOdds (some o) = some (round (100 / o)))
    ∧ (∀ o : ℚ, o ≤ 0 → calculateWinChanceFromOdds (some o) = none)
    ∧ calculateWinChanceFromOdds none = none := by
  refine ⟨?_, ?_, rfl⟩
  · intro o ho
    simp only [calculateWinChanceFromOdds, if_neg (not_le.2 ho)]
    congr 1
    rw [div_mul_eq_mul_div, one_mul]
  · intro o ho
    simp [calculateWinChanceFromOdds, ho]

/-- Claim C4, witness: odds 2 give `round(100/2) = 50`, odds 0 give the
unavailable marker. -/
theorem calculateWinChanceFromOdds_spec_witness :
    calculateWinChanceFromOdds (some 2) = some (round ((100 : ℚ) / 2))
    ∧ calculateWinChanceFromOdds (some 0) = none
    ∧ round ((100 : ℚ) / 2) = 50 :=
  ⟨calculateWinChanceFromOdds_spec.1 2 (by norm_num),
   calculateWinChanceFromOdds_spec.2.1 0 le_rfl,
   by norm_num⟩

/-- Claim C5: in live mode a malformed body or a thrown request error makes
`getPredictions` return exactly the fixed sample set of offline mode for the
requested date, with no error surfaced (the function is total). -/
theorem getPredictions_fallback_on_failure (date : String) :
    getPredictions false .malformed date = getMockPredictions date
    ∧ getPredictions false .requestError date = getMockPredictions date
    ∧ getPredictions false .malformed date = getPredictions true .malformed date
    ∧ getPredictions false .requestError date = getPredictions true .requestError date :=
  ⟨rfl, rfl, rfl, rfl⟩

/-- Claim C6: every record produced by live-mode normalization has non-empty
team names and `homeWinChance > 0`, and the cache document built from such a
record keeps these properties. -/
theorem transformBetminerData_valid (ms : List BetminerMatch) (p : TransformedPrediction) :
    p ∈ transformBetminerData ms →
      (p.homeTeam ≠ "" ∧ p.awayTeam ≠ "" ∧ 0 < p.homeWinChance)
      ∧ ∀ (date : String) (now : ℤ),
          (toDoc date now p).homeTeam ≠ "" ∧ (toDoc date now p).awayTeam ≠ ""
          ∧ 0 < (toDoc date now p).homeWinChance := by
  intro hp
  have hv := (List.mem_filter.1 hp).2
  simp only [validPrediction, Bool.and_eq_true, Bool.not_eq_true',
    decide_eq_true_eq] at hv
  obtain ⟨⟨h1, h2⟩, h3⟩ := hv
  refine ⟨⟨isEmpty_false_ne_empty h1, isEmpty_false_ne_empty h2, h3⟩, ?_⟩
  intro date now
  refine ⟨jsStrOr_ne_empty _ _ (by decide), jsStrOr_ne_empty _ _ (by decide), ?_⟩
  simpa [toDoc, jsNumOr_zero] using h3

lemma round_half_mul_hundred : round ((1/(2:ℚ)) * 100) = 50 := by
  rw [show (1/(2:ℚ)) * 100 = 50 by norm_num]
  norm_num

lemma sampleMatch_homeWinChance : (transformMatch sampleMatch).homeWinChance = 50 := by
  have e3 : calculateWinChanceFromOdds (some 2) = some 50 := by
    norm_num [calculateWinChanceFromOdds, round_half_mul_hundred]
  simp [transformMatch, sampleMatch, sampleOdds, sampleConf, e3, parseConfidence, jsOptNumOr]

lemma sampleMatch_valid : validPrediction (transformMatch sampleMatch) = true := by
  unfold validPrediction
  rw [sampleMatch_homeWinChance]
  decide

/-- Claim C6, witness: the sample raw match survives normalization and
satisfies the invariant. -/
theorem transformBetminerData_valid_witness :
    ((transformMatch sampleMatch).homeTeam ≠ ""
      ∧ (transformMatch sampleMatch).awayTeam ≠ ""
      ∧ 0 < (transformMatch sampleMatch).homeWinChance)
    ∧ ∀ (date : String) (now : ℤ),
        (toDoc date now (transformMatch sampleMatch)).homeTeam ≠ ""
        ∧ (toDoc date now (transformMatch sampleMatch)).awayTeam ≠ ""
        ∧ 0 < (toDoc date now (transformMatch sampleMatch)).homeWinChance :=
  transformBetminerData_valid [sampleMatch] (transformMatch sampleMatch)
    (by simp [transformBetminerData, sampleMatch_valid])

lemma round_one_div_250_mul_100 : round ((1/(250:ℚ)) * 100) = 0 := by
  rw [show (1/(250:ℚ)) * 100 = 2/5 by norm_num, round_eq]
  norm_num

lemma calc_250_eq_zero : calculateWinChanceFromOdds (some 250) = some 0 := by
  norm_num [calculateWinChanceFromOdds, round_one_div_250_mul_100]

lemma conf_30_eq_30 : parseConfidence (some 30) = some 30 := by
  simp [parseConfidence]

/-- Claim C7, counterexample: for a match with parsable positive home odds of
250 and a home confidence of 30, the code resolves the home chance to the
confidence value 30, while the claimed odds-first order would resolve it to
the odds-derived value 0. -/
theorem transformMatch_not_specOrder :
    (transformMatch oddsZeroMatch).homeWinChance = 30
    ∧ resolveChance_specOrder (calculateWinChanceFromOdds (some 250))
        (parseConfidence (some 30)) = 0
    ∧ (30 : ℤ) ≠ 0 := by
  refine ⟨?_, ?_, by decide⟩
  · simp only [transformMatch, oddsZeroMatch, oddsZeroOdds, oddsZeroConf]
    rw [calc_250_eq_zero, conf_30_eq_30]
    simp [jsOptNumOr]
  · rw [calc_250_eq_zero]
    simp [resolveChance_specOrder]

/-- Claim C7, amended: each chance field is resolved by preferring the
odds-derived value when it is available and nonzero, falling back to the
confidence value when it is available and nonzero, and defaulting to 0. -/
theorem transformMatch_chance_resolution (m : BetminerMatch) :
    (transformMatch m).homeWinChance
      = resolveChance_amended (calculateWinChanceFromOdds m.odds.home_win_odds)
          (parseConfidence m.predictions_conf.HOME_WIN)
    ∧ (transformMatch m).awayWinChance
      = resolveChance_amended (calculateWinChanceFromOdds m.odds.away_win_odds)
          (parseConfidence m.predictions_conf.AWAY_WIN)
    ∧ (transformMatch m).drawChance
      = resolveChance_amended (calculateWinChanceFromOdds m.odds.draw_odds)
          (parseConfidence m.predictions_conf.DRAW) := by
  have key : ∀ a b : Option ℤ, jsOptNumOr a (jsOptNumOr b 0) = resolveChance_amended a b := by
    intro a b
    cases a <;> cases b <;>
      simp only [jsOptNumOr, resolveChance_amended] <;>
      split_ifs <;> simp_all
  simp only [transformMatch]
  exact ⟨key _ _, key _ _, key _ _⟩

/-- Claim C8, counterexample: the parsable positive odds value 1/2 yields
`round(100 / (1/2)) = 200`, outside the claimed range 0..100. -/
theorem calculateWinChanceFromOdds_exceeds_100 :
    calculateWinChanceFromOdds (some (1/2 : ℚ)) = some 200 ∧ ¬ ((200 : ℤ) ≤ 100) := by
  have h0 : ¬ ((1/2 : ℚ) ≤ 0) := by norm_num
  refine ⟨?_, by decide⟩
  simp only [calculateWinChanceFromOdds, if_neg h0]
  rw [show (1/((1:ℚ)/2)) * 100 = 200 by norm_num]
  norm_num

/-- Claim C8, amended: for every parsed odds value `o ≥ 1` the conversion
returns an integer between 0 and 100 inclusive (for `0 < o < 1` the result
can exceed 100). -/
theorem calculateWinChanceFromOdds_range (o : ℚ) (h : 1 ≤ o) :
    calculateWinChanceFromOdds (some o) = some (round ((1/o) * 100))
    ∧ 0 ≤ round ((1/o) * 100) ∧ round ((1/o) * 100) ≤ 100 := by
  have h0 : (0 : ℚ) < o := lt_of_lt_of_le one_pos h
  have hx : (1/o) * 100 = 100 / o := by rw [div_mul_eq_mul_div, one_mul]
  refine ⟨by simp [calculateWinChanceFromOdds, not_le.2 h0], ?_, ?_⟩
  · rw [round_eq]
    apply Int.floor_nonneg.2
    positivity
  · rw [hx, round_eq]
    have h1 : (100 : ℚ) / o ≤ 100 := div_le_self (by norm_num) h
    calc ⌊(100:ℚ)/o + 1/2⌋ ≤ ⌊(100:ℚ) + 1/2⌋ := Int.floor_le_floor (by linarith)
      _ = 100 := by norm_num

/-- Claim C8 amended, witness: odds 4 give 25, inside the range. -/
theorem calculateWinChanceFromOdds_range_witness :
    (calculateWinChanceFromOdds (some 4) = some (round ((1/(4:ℚ)) * 100))
      ∧ 0 ≤ round ((1/(4:ℚ)) * 100) ∧ round ((1/(4:ℚ)) * 100) ≤ 100)
    ∧ round ((1/(4:ℚ)) * 100) = 25 :=
  ⟨calculateWinChanceFromOdds_range 4 (by norm_num), by
    rw [show (1/(4:ℚ)) * 100 = 25 by norm_num]
    norm_num⟩

/-- Claim C9: the query result does not depend on how the cache write ends
(every failure is swallowed), and on a cache miss it is always the freshly
fetched, threshold- and team-filtered set with `cached = false`. -/
theorem getPredictionsForDate_write_failure_transparent
    (store : List PredictionDoc) (date : String) (tf : Option String) (now : ℤ)
    (api : List TransformedPrediction) (w w2 : WriteOutcome) :
    ((getPredictionsForDate store date tf now api w).1
      = (getPredictionsForDate store date tf now api w2).1)
    ∧ (findFresh store date (now - TTL_MS) = [] →
        (getPredictionsForDate store date tf now api w).1
          = { predictions := applyTeamFilterDto tf (transformApiToDto
                (filterPredictionsByHomeWinChance api)),
              cached := false }) := by
  constructor
  · simp only [getPredictionsForDate]
    split <;> rfl
  · intro hnil
    simp only [getPredictionsForDate, hnil, List.length_nil]
    simp

/-- Claim C9, witness: a concrete miss with a failing insert still returns
the filtered fetched set with `cached = false`. -/
theorem getPredictionsForDate_write_failure_transparent_witness :
    (getPredictionsForDate [] "2025-08-12" none 0 [] .insertFails).1
      = { predictions := applyTeamFilterDto none (transformApiToDto
            (filterPredictionsByHomeWinChance [])),
          cached := false } :=
  (getPredictionsForDate_write_failure_transparent [] "2025-08-12" none 0 []
    .insertFails .ok).2 rfl

/-- Claim C10: when the freshness check is non-empty (a cache hit), both
query operations leave the stored records unchanged. -/
theorem cache_hit_no_write
    (store : List PredictionDoc) (date : String) (tf : Option String) (now : ℤ)
    (api : List TransformedPrediction) (w : WriteOutcome) :
    findFresh store date (now - TTL_MS) ≠ [] →
      (getPredictionsForDate store date tf now api w).2 = store
      ∧ (getAllPredictionsForDate store date tf now api w).2 = store := by
  intro hne
  have hlen : 0 < (findFresh store date (now - TTL_MS)).length := List.length_pos.2 hne
  constructor
  · simp only [getPredictionsForDate, if_pos hlen]
  · simp only [getAllPredictionsForDate, if_pos hlen]

/-- Claim C10, witness: a store with one fresh document is returned unchanged
by both operations. -/
theorem cache_hit_no_write_witness :
    (getPredictionsForDate [doc119 0] "2025-08-12" none 0 [] .ok).2 = [doc119 0]
    ∧ (getAllPredictionsForDate [doc119 0] "2025-08-12" none 0 [] .ok).2 = [doc119 0] :=
  cache_hit_no_write [doc119 0] "2025-08-12" none 0 [] .ok (by decide)
